import Mathlib

/-!
Verification of the collision / physics core of the landstalker-remaster
repository.  The Python source is embedded shallowly: world coordinates
(Python floats holding dyadic values) become rationals, Python lists become
`List`, `None`-returning functions become `Option`, and Python object
identity (used for `is` comparisons such as the grabbed-entity exclusion)
is modelled by numeric entity ids.  Python `math.floor`-style `//` becomes
`Rat.floor` and `int(...)` truncation becomes `pyInt`.
-/

/-- A 3-component vector, mirroring `pygame.math.Vector3` as used for world
positions (x, y ground plane, z height). -/
structure Vec3 where
  x : ℚ
  y : ℚ
  z : ℚ
deriving DecidableEq

/-- Python `int(...)` applied to a float: truncation toward zero. -/
def pyInt (q : ℚ) : ℤ :=
  if q < 0 then -Rat.floor (-q) else Rat.floor q

/-- Mirrors `boundingbox.py` class `BoundingBox`: a world position together
with a square footprint side and a height, both in tiles. -/
structure BoundingBox where
  world_pos : Vec3
  height_in_tiles : ℚ
  size_in_tiles : ℚ
deriving DecidableEq

namespace BoundingBox

/-- `boundingbox.py`: `MARGIN = 2` (pixels), subtracted from the pixel-space
footprint. -/
def MARGIN : ℚ := 2

/-- `BoundingBox.get_bounding_box(tile_h)`: `(x, y, width, height)` with the
pixel margin applied; width and height are `tile_h * size_in_tiles - 2*MARGIN`. -/
def get_bounding_box (b : BoundingBox) (tile_h : ℤ) : ℚ × ℚ × ℚ × ℚ :=
  (b.world_pos.x + MARGIN,
   b.world_pos.y + MARGIN,
   (tile_h : ℚ) * b.size_in_tiles - MARGIN * 2,
   (tile_h : ℚ) * b.size_in_tiles - MARGIN * 2)

/-- `BoundingBox.get_corners_world(tile_h)`: the four footprint corners in the
fixed order (left, bottom, right, top). -/
def get_corners_world (b : BoundingBox) (tile_h : ℤ) :
    (ℚ × ℚ) × (ℚ × ℚ) × (ℚ × ℚ) × (ℚ × ℚ) :=
  let bb := b.get_bounding_box tile_h
  let x := bb.1
  let y := bb.2.1
  let width := bb.2.2.1
  let height := bb.2.2.2
  ((x, y + height), (x + width, y + height), (x + width, y), (x, y))

end BoundingBox

/-- Mirrors the fields of `entity.py` class `Entity` that the collision core
reads: bounding box and the solid / visible flags.  The `id` field models
Python object identity (used by `is` comparisons in the source). -/
structure Entity where
  id : ℕ
  bbox : BoundingBox
  solid : Bool
  visible : Bool
deriving DecidableEq

/-- Mirrors the fields of `hero.py` class `Hero` that the collision core
reads.  Per `Hero.__init__`, `hero.bbox` aliases the hero's own world
position, so only the bbox size and height are stored separately; `grabbed`
holds the id of `hero.grabbed_entity`, if any. -/
structure Hero where
  world_pos : Vec3
  bbox_height : ℚ
  bbox_size : ℚ
  grabbed : Option ℕ
  is_jumping : Bool
  touch_ground : Bool
deriving DecidableEq

/-- `hero.bbox`: by the aliasing invariant of `drawable.py` / `hero.py`, the
hero's bounding box always carries the hero's current world position. -/
def Hero.bbox (h : Hero) : BoundingBox :=
  ⟨h.world_pos, h.bbox_height, h.bbox_size⟩

/-- Mirrors `heightmap.py` class `HeightmapCell`. -/
structure HeightmapCell where
  height : ℤ
  walkable : ℤ
deriving DecidableEq

/-- `HeightmapCell.is_walkable`: walkable grade strictly below 4. -/
def HeightmapCell.is_walkable (c : HeightmapCell) : Bool :=
  decide (c.walkable < 4)

/-- Mirrors `heightmap.py` class `Heightmap` (the loaded cell grid plus the
tile-space offsets). -/
structure Heightmap where
  left_offset : ℤ
  top_offset : ℤ
  cells : List (List HeightmapCell)
deriving DecidableEq

namespace Heightmap

/-- `Heightmap.get_width`: length of the first row, 0 if no rows. -/
def get_width (hm : Heightmap) : ℕ :=
  match hm.cells with
  | [] => 0
  | row :: _ => row.length

/-- `Heightmap.get_height`: number of rows. -/
def get_height (hm : Heightmap) : ℕ :=
  hm.cells.length

/-- `Heightmap.get_cell(x, y)`: returns the stored cell when
`0 <= y < len(cells)` and `0 <= x < len(cells[0])`, and `None` otherwise. -/
def get_cell (hm : Heightmap) (x y : ℤ) : Option HeightmapCell :=
  if 0 ≤ y ∧ y < (hm.get_height : ℤ) ∧ 0 ≤ x ∧ x < (hm.get_width : ℤ) then
    (hm.cells.get? y.toNat).bind (fun row => row.get? x.toNat)
  else
    none

end Heightmap

namespace Collision

/-- `collision.py`: `MARGIN = 2.0 / 16.0` (tiles). -/
def MARGIN : ℚ := 2 / 16

/-- `collision.py` `check_entity_collision_3d`: 3D AABB test.  Note that the
source shifts the *target* footprint by `- 12` on both axes (entity
positions carry a 12-tile map offset) while the moving footprint is not
shifted. -/
def check_entity_collision_3d (moving_bbox target_bbox : BoundingBox) : Bool :=
  let me_x := moving_bbox.world_pos.x + MARGIN
  let me_y := moving_bbox.world_pos.y + MARGIN
  let me_w := moving_bbox.size_in_tiles - (MARGIN * 2)
  let me_h := moving_bbox.size_in_tiles - (MARGIN * 2)
  let te_x := target_bbox.world_pos.x + MARGIN - 12
  let te_y := target_bbox.world_pos.y + MARGIN - 12
  let te_w := target_bbox.size_in_tiles - (MARGIN * 2)
  let te_h := target_bbox.size_in_tiles - (MARGIN * 2)
  let xy_collision :=
    decide (me_x < te_x + te_w) && decide (me_x + me_w > te_x) &&
    decide (me_y < te_y + te_h) && decide (me_y + me_h > te_y)
  if !xy_collision then
    false
  else
    let moving_z := moving_bbox.world_pos.z
    let target_z := target_bbox.world_pos.z
    let moving_z_height := moving_bbox.height_in_tiles
    let target_z_height := target_bbox.height_in_tiles
    decide (moving_z < target_z + target_z_height) &&
    decide (moving_z + moving_z_height > target_z)

/-- The temporary bounding box `check_collids_entity` builds at the probed
position: hero size and height at `(x, y, hero.z)`. -/
def temp_hero_bbox (hero : Hero) (x y : ℚ) : BoundingBox :=
  ⟨⟨x, y, hero.world_pos.z⟩, hero.bbox.height_in_tiles, hero.bbox.size_in_tiles⟩

/-- `collision.py` `check_collids_entity`: first entity of the list whose
bounding box 3D-collides with the hero placed at `(x, y)`, `None` if none
does.  Note that the source applies no solid / visible / grabbed filtering
here. -/
def check_collids_entity (hero : Hero) (x y : ℚ) : List Entity → Option Entity
  | [] => none
  | entity :: rest =>
    if check_entity_collision_3d (temp_hero_bbox hero x y) entity.bbox then
      some entity
    else
      check_collids_entity hero x y rest

/-- `collision.py` `resolve_entity_collision`: try the diagonal move, then the
X-only move, then the Y-only move, first success wins; on total failure stay
at the old position and report the obstacle of the last (Y-only) test. -/
def resolve_entity_collision (hero : Hero) (entities : List Entity)
    (new_x new_y : ℚ) : ℚ × ℚ × Option Entity :=
  let hero_pos := hero.world_pos
  match check_collids_entity hero new_x new_y entities with
  | none => (new_x, new_y, none)
  | some _ =>
    match check_collids_entity hero new_x hero_pos.y entities with
    | none => (new_x, hero_pos.y, none)
    | some _ =>
      match check_collids_entity hero hero_pos.x new_y entities with
      | none => (hero_pos.x, new_y, none)
      | some touched_entity => (hero_pos.x, hero_pos.y, some touched_entity)

/-- One iteration of the `get_entity_top_at_position` loop: fold the entity
into the running highest qualifying top. -/
def entity_top_step (check_x check_y check_width check_height hero_z : ℚ)
    (highest_top : Option ℚ) (entity : Entity) : Option ℚ :=
  if !entity.solid || !entity.visible then
    highest_top
  else
    let entity_x := entity.bbox.world_pos.x + MARGIN - 12
    let entity_y := entity.bbox.world_pos.y + MARGIN - 12
    let entity_w := entity.bbox.size_in_tiles - (MARGIN * 2)
    let entity_h := entity.bbox.size_in_tiles - (MARGIN * 2)
    let xy_overlap :=
      decide (check_x < entity_x + entity_w) &&
      decide (check_x + check_width > entity_x) &&
      decide (check_y < entity_y + entity_h) &&
      decide (check_y + check_height > entity_y)
    if !xy_overlap then
      highest_top
    else
      let entity_top_tiles := entity.bbox.world_pos.z + entity.bbox.height_in_tiles
      if entity_top_tiles ≤ hero_z + 1 / 16 then
        match highest_top with
        | none => some entity_top_tiles
        | some h => if entity_top_tiles > h then some entity_top_tiles else some h
      else
        highest_top

/-- `collision.py` `get_entity_top_at_position`: highest top (`z + height`)
among solid, visible entities whose shifted footprint overlaps the probe
rectangle and whose top is at most `hero_z` plus the 1/16-tile tolerance. -/
def get_entity_top_at_position (entities : List Entity)
    (check_x check_y check_width check_height hero_z : ℚ) : Option ℚ :=
  entities.foldl (entity_top_step check_x check_y check_width check_height hero_z) none

/-- One iteration of the `get_entity_hero_is_standing_on` loop: fold the
entity into the running (highest top, its entity) pair. -/
def standing_on_step (hero : Hero) (check_x check_y check_width check_height : ℚ)
    (acc : Option (ℚ × Entity)) (entity : Entity) : Option (ℚ × Entity) :=
  if !entity.solid || !entity.visible || hero.grabbed == some entity.id then
    acc
  else
    let entity_x := entity.bbox.world_pos.x + MARGIN - 12
    let entity_y := entity.bbox.world_pos.y + MARGIN - 12
    let entity_w := entity.bbox.size_in_tiles - (MARGIN * 2)
    let entity_h := entity.bbox.size_in_tiles - (MARGIN * 2)
    let xy_overlap :=
      decide (check_x < entity_x + entity_w) &&
      decide (check_x + check_width > entity_x) &&
      decide (check_y < entity_y + entity_h) &&
      decide (check_y + check_height > entity_y)
    if !xy_overlap then
      acc
    else
      let entity_top := entity.bbox.world_pos.z + entity.bbox.height_in_tiles
      if |hero.world_pos.z - entity_top| ≤ 1 / 16 then
        match acc with
        | none => some (entity_top, entity)
        | some (highest_top, highest_entity) =>
          if entity_top > highest_top then some (entity_top, entity)
          else some (highest_top, highest_entity)
      else
        acc

/-- `collision.py` `get_entity_hero_is_standing_on`: among solid, visible,
not-grabbed entities whose shifted footprint overlaps the hero's footprint,
the one of maximal top whose top is within the two-sided 1/16-tile band
around the hero's foot Z (`abs(hero_z - entity_top) <= 0.0625`). -/
def get_entity_hero_is_standing_on (hero : Hero) (entities : List Entity) :
    Option Entity :=
  let check_x := hero.world_pos.x + MARGIN
  let check_y := hero.world_pos.y + MARGIN
  let check_width := hero.bbox.size_in_tiles - (MARGIN * 2)
  let check_height := hero.bbox.size_in_tiles - (MARGIN * 2)
  (entities.foldl (standing_on_step hero check_x check_y check_width check_height)
    none).map Prod.snd

/-- The entity-overlap loop of `can_place_entity_at_position`: `False` as soon
as a solid, visible entity other than the placed one 3D-collides with the
candidate bounding box. -/
def can_place_loop (temp_bbox : BoundingBox) (entity : Entity) : List Entity → Bool
  | [] => true
  | other :: rest =>
    if other.id == entity.id || !other.solid || !other.visible then
      can_place_loop temp_bbox entity rest
    else if check_entity_collision_3d temp_bbox other.bbox then
      false
    else
      can_place_loop temp_bbox entity rest

/-- `collision.py` `can_place_entity_at_position`: bounds check on the
candidate tile, then walkability, then the height-versus-hero step threshold
(2 tiles), then the 3D collision loop, short-circuiting on first failure. -/
def can_place_entity_at_position (hero_z : ℚ) (entity : Entity) (x y z : ℚ)
    (other_entities : List Entity) (heightmap : Heightmap) : Bool :=
  let tile_x := pyInt x
  let tile_y := pyInt y
  if tile_x < 0 ∨ tile_y < 0 ∨
      (heightmap.get_width : ℤ) ≤ tile_x ∨ (heightmap.get_height : ℤ) ≤ tile_y then
    false
  else
    match heightmap.get_cell tile_x tile_y with
    | none => false
    | some cell =>
      if !cell.is_walkable then
        false
      else
        let terrain_z : ℚ := (cell.height : ℚ)
        if terrain_z - hero_z > 2 then
          false
        else
          let temp_bbox : BoundingBox :=
            ⟨⟨x, y, z⟩, entity.bbox.height_in_tiles, entity.bbox.size_in_tiles⟩
          can_place_loop temp_bbox entity other_entities

end Collision

/-- Mirrors `warp.py` class `Warp`: two room ids with a tile rectangle each. -/
structure Warp where
  room1 : ℤ
  room2 : ℤ
  x : ℤ
  y : ℤ
  x2 : ℤ
  y2 : ℤ
  width : ℤ
  height : ℤ
deriving DecidableEq

namespace Warp

/-- `Warp.check_collision`: point-in-rectangle test of the hero bounding box
center against the rectangle of the current room's side, shifted by the
fixed 12-tile offset. -/
def check_collision (w : Warp) (hero_x hero_y hero_width hero_height : ℚ)
    (current_room : ℤ) : Bool :=
  let warp_tile_x := if w.room1 == current_room then w.x else w.x2
  let warp_tile_y := if w.room1 == current_room then w.y else w.y2
  let hero_center_x_pixels := hero_x + ((Rat.floor (hero_width / 2) : ℤ) : ℚ)
  let hero_center_y_pixels := hero_y + ((Rat.floor (hero_height / 2) : ℤ) : ℚ)
  let hero_tile_x := pyInt hero_center_x_pixels
  let hero_tile_y := pyInt hero_center_y_pixels
  (decide (warp_tile_x - 12 ≤ hero_tile_x) &&
    decide (hero_tile_x < warp_tile_x - 12 + w.width)) &&
  (decide (warp_tile_y - 12 ≤ hero_tile_y) &&
    decide (hero_tile_y < warp_tile_y - 12 + w.height))

/-- `Warp.get_destination`: the *other* rectangle's origin shifted by the
fixed 12-tile offset; the triggering tile plays no part. -/
def get_destination (w : Warp) (current_room : ℤ) : ℤ × ℤ :=
  let dest_tile_x := if current_room == w.room1 then w.x2 else w.x
  let dest_tile_y := if current_room == w.room1 then w.y2 else w.y
  (dest_tile_x - 12, dest_tile_y - 12)

/-- `Warp.get_target_room`: the room on the other side of the warp. -/
def get_target_room (w : Warp) (current_room : ℤ) : ℤ :=
  if current_room == w.room1 then w.room2 else w.room1

end Warp

namespace Game

/-- `game.py`: `GRAVITY = 3.0`. -/
def GRAVITY : ℚ := 3

/-- The uncaught Python exception raised by the stale gravity path of
`game.py` (see `apply_gravity`). -/
inductive PyError where
  | typeError
deriving DecidableEq

/-- `game.py` `apply_gravity`: a jumping hero is left untouched (the whole
body sits under `if not self.hero.is_jumping`); for every non-jumping hero
the function raises an uncaught TypeError before any Z update -- line 644
passes 3 arguments (`self.hero, entities_to_check, tile_h`) to the
2-parameter `collision.py` `get_entity_hero_is_standing_on`, and line 651
likewise passes 7 arguments to the 6-parameter `get_entity_top_at_position`.
The corner and terrain reads of lines 596-641 that precede the call are
pure, so the observable outcome of the non-jumping branch is the exception
with no change to the hero's position or `touch_ground`. -/
def apply_gravity (hero : Hero) (hm : Heightmap) (entities : List Entity)
    (tile_h : ℤ) : Except PyError Hero :=
  if hero.is_jumping then
    Except.ok hero
  else
    Except.error PyError.typeError

/-- The warp-check tile memory of `game.py` (`prev_hero_tile_x/y`). -/
structure WarpCheckState where
  prev_hero_tile_x : ℤ
  prev_hero_tile_y : ℤ
deriving DecidableEq

/-- The tile of the hero bounding-box center, as computed at the top of
`game.py` `check_warp_collision`:
`int((hero_x + hero_width // 2) // tile_h)` (the outer `int` is the
identity on the already integral quotient). -/
def hero_center_tile (hero_bb : ℚ × ℚ × ℚ × ℚ) (tile_h : ℤ) : ℤ × ℤ :=
  (Rat.floor ((hero_bb.1 + ((Rat.floor (hero_bb.2.2.1 / 2) : ℤ) : ℚ)) / (tile_h : ℚ)),
   Rat.floor ((hero_bb.2.1 + ((Rat.floor (hero_bb.2.2.2 / 2) : ℤ) : ℚ)) / (tile_h : ℚ)))

/-- `game.py` `check_warp_collision`, reduced to its observable effect on the
recorded tile and the fired/not-fired outcome: if the hero's center tile
equals the recorded tile, do nothing; otherwise record the new tile and fire
iff some warp's rectangle test passes with a target room different from the
current room. -/
def check_warp_collision (st : WarpCheckState) (room_number : ℤ)
    (warps : List Warp) (hero_bb : ℚ × ℚ × ℚ × ℚ) (tile_h : ℤ) :
    Bool × WarpCheckState :=
  let current := hero_center_tile hero_bb tile_h
  if current.1 == st.prev_hero_tile_x && current.2 == st.prev_hero_tile_y then
    (false, st)
  else
    let st2 : WarpCheckState := ⟨current.1, current.2⟩
    let fired := warps.any (fun w =>
      w.check_collision hero_bb.1 hero_bb.2.1 hero_bb.2.2.1 hero_bb.2.2.2 room_number &&
      !(w.get_target_room room_number == room_number))
    (fired, st2)

/-- Total number of warp firings over a sequence of per-frame checks,
threading the recorded-tile state. -/
def run_warp_checks (room_number : ℤ) (warps : List Warp) (tile_h : ℤ)
    (st : WarpCheckState) : List (ℚ × ℚ × ℚ × ℚ) → ℕ
  | [] => 0
  | hero_bb :: rest =>
    let step := check_warp_collision st room_number warps hero_bb tile_h
    (if step.1 then 1 else 0) + run_warp_checks room_number warps tile_h step.2 rest

end Game

namespace Drawable

/-- Heap model for the position aliasing of `drawable.py`: position objects
(`pygame Vector3`) live in a heap addressed by index; the actor's
`_world_pos` and its bounding box's `world_pos` are references into it. -/
structure AliasState where
  heap : List Vec3
  pos_ref : ℕ
  bbox_ref : ℕ
deriving DecidableEq

/-- The position-mutating operations of `drawable.py` named by the claim. -/
inductive PosOp where
  | set_world_pos (x y z : ℚ)
  | set_world_x (x : ℚ)
  | set_world_y (y : ℚ)
  | set_world_z (z : ℚ)
  | add_world_x (dx : ℚ)
  | add_world_y (dy : ℚ)
  | add_world_z (dz : ℚ)

/-- The actor's world position: dereference `_world_pos`. -/
def AliasState.world_pos (s : AliasState) : Vec3 :=
  s.heap.getD s.pos_ref ⟨0, 0, 0⟩

/-- The bounding box's position: dereference `bbox.world_pos`. -/
def AliasState.bbox_world_pos (s : AliasState) : Vec3 :=
  s.heap.getD s.bbox_ref ⟨0, 0, 0⟩

/-- Actor construction (`Drawable.__init__` + `Hero.__init__` line 56 /
`Entity.__init__` line 307): one fresh position object, with
`BoundingBox(self._world_pos, ...)` referencing that very object. -/
def construct_actor (x y z : ℚ) : AliasState :=
  ⟨[⟨x, y, z⟩], 0, 0⟩

/-- Executing one position-mutating operation.  `set_world_pos` writes all
three coordinates and re-assigns `bbox.world_pos = self._world_pos`
(`drawable.py` line 94); the single-coordinate setters and adders mutate the
position object in place and never touch the bounding box. -/
def AliasState.apply (s : AliasState) : PosOp → AliasState
  | .set_world_pos x y z =>
    { s with heap := s.heap.set s.pos_ref (Vec3.mk x y z), bbox_ref := s.pos_ref }
  | .set_world_x x =>
    { s with heap := s.heap.set s.pos_ref (Vec3.mk x s.world_pos.y s.world_pos.z) }
  | .set_world_y y =>
    { s with heap := s.heap.set s.pos_ref (Vec3.mk s.world_pos.x y s.world_pos.z) }
  | .set_world_z z =>
    { s with heap := s.heap.set s.pos_ref (Vec3.mk s.world_pos.x s.world_pos.y z) }
  | .add_world_x dx =>
    { s with heap := s.heap.set s.pos_ref (Vec3.mk (s.world_pos.x + dx) s.world_pos.y s.world_pos.z) }
  | .add_world_y dy =>
    { s with heap := s.heap.set s.pos_ref (Vec3.mk s.world_pos.x (s.world_pos.y + dy) s.world_pos.z) }
  | .add_world_z dz =>
    { s with heap := s.heap.set s.pos_ref (Vec3.mk s.world_pos.x s.world_pos.y (s.world_pos.z + dz)) }

end Drawable

namespace Collision

/-- The entity top `z + height` computed in the standing / support loops. -/
def entity_top (e : Entity) : ℚ :=
  e.bbox.world_pos.z + e.bbox.height_in_tiles

/-- The per-entity qualification test actually used by
`get_entity_hero_is_standing_on`: solid, visible, not grabbed, footprint
overlap against the hero's footprint, and the entity top within the
two-sided 1/16-tile band around the hero's foot Z. -/
def standing_on_qualifies (hero : Hero) (e : Entity) : Bool :=
  let check_x := hero.world_pos.x + MARGIN
  let check_y := hero.world_pos.y + MARGIN
  let check_width := hero.bbox.size_in_tiles - (MARGIN * 2)
  let check_height := hero.bbox.size_in_tiles - (MARGIN * 2)
  let entity_x := e.bbox.world_pos.x + MARGIN - 12
  let entity_y := e.bbox.world_pos.y + MARGIN - 12
  let entity_w := e.bbox.size_in_tiles - (MARGIN * 2)
  let entity_h := e.bbox.size_in_tiles - (MARGIN * 2)
  e.solid && e.visible && !(hero.grabbed == some e.id) &&
  (decide (check_x < entity_x + entity_w) &&
   decide (check_x + check_width > entity_x) &&
   decide (check_y < entity_y + entity_h) &&
   decide (check_y + check_height > entity_y)) &&
  decide (|hero.world_pos.z - entity_top e| ≤ 1 / 16)

/-- The qualification test the claim attributes to the standing-on check
(the words of the spec, for comparison with `standing_on_qualifies`): solid,
visible, not grabbed, footprint overlap, and the entity top at or below the
hero's foot Z plus the one-minor-unit tolerance — the *one-sided* test of
`get_entity_top_at_position`. -/
def spec_standing_qualifies (hero : Hero) (e : Entity) : Bool :=
  let check_x := hero.world_pos.x + MARGIN
  let check_y := hero.world_pos.y + MARGIN
  let check_width := hero.bbox.size_in_tiles - (MARGIN * 2)
  let check_height := hero.bbox.size_in_tiles - (MARGIN * 2)
  let entity_x := e.bbox.world_pos.x + MARGIN - 12
  let entity_y := e.bbox.world_pos.y + MARGIN - 12
  let entity_w := e.bbox.size_in_tiles - (MARGIN * 2)
  let entity_h := e.bbox.size_in_tiles - (MARGIN * 2)
  e.solid && e.visible && !(hero.grabbed == some e.id) &&
  (decide (check_x < entity_x + entity_w) &&
   decide (check_x + check_width > entity_x) &&
   decide (check_y < entity_y + entity_h) &&
   decide (check_y + check_height > entity_y)) &&
  decide (entity_top e ≤ hero.world_pos.z + 1 / 16)

/-- The fold underlying `get_entity_hero_is_standing_on`, with the probe
rectangle instantiated to the hero's footprint (named so the loop invariant
lemmas stay readable). -/
def standing_fold (hero : Hero) (acc : Option (ℚ × Entity)) (entities : List Entity) :
    Option (ℚ × Entity) :=
  entities.foldl (standing_on_step hero (hero.world_pos.x + MARGIN)
    (hero.world_pos.y + MARGIN) (hero.bbox.size_in_tiles - (MARGIN * 2))
    (hero.bbox.size_in_tiles - (MARGIN * 2))) acc

end Collision

namespace Warp

/-- The origin of the rectangle a warp stores for a given room side
(room1 owns `(x, y)`, the other side owns `(x2, y2)`). -/
def rect_origin (w : Warp) (room : ℤ) : ℤ × ℤ :=
  if room == w.room1 then (w.x, w.y) else (w.x2, w.y2)

end Warp

theorem if_not_eq_and (c z : Bool) : (if !c then false else z) = (c && z) := by
  cases c <;> rfl

theorem check_entity_collision_3d_eq_true (a b : BoundingBox) :
    Collision.check_entity_collision_3d a b = true ↔
      (a.world_pos.x + Collision.MARGIN <
          b.world_pos.x + Collision.MARGIN - 12 + (b.size_in_tiles - Collision.MARGIN * 2) ∧
       a.world_pos.x + Collision.MARGIN + (a.size_in_tiles - Collision.MARGIN * 2) >
          b.world_pos.x + Collision.MARGIN - 12 ∧
       a.world_pos.y + Collision.MARGIN <
          b.world_pos.y + Collision.MARGIN - 12 + (b.size_in_tiles - Collision.MARGIN * 2) ∧
       a.world_pos.y + Collision.MARGIN + (a.size_in_tiles - Collision.MARGIN * 2) >
          b.world_pos.y + Collision.MARGIN - 12 ∧
       a.world_pos.z < b.world_pos.z + b.height_in_tiles ∧
       a.world_pos.z + a.height_in_tiles > b.world_pos.z) := by
  unfold Collision.check_entity_collision_3d
  rw [if_not_eq_and]
  simp [and_assoc]

/-- Claim C1 counterexample: for A at (0,0,0) with size 1 and height 1 and B
at (0.5,0,0) with size 1 and height 1, the predicate returns false (the
target footprint is shifted by the 12-tile entity map offset), not true as
the claim's scenario states. -/
theorem C1_counterexample :
    Collision.check_entity_collision_3d ⟨⟨0, 0, 0⟩, 1, 1⟩ ⟨⟨1/2, 0, 0⟩, 1, 1⟩ = false := by
  with_unfolding_all rfl

/-- Claim C1 (amended): the 3D collision predicate returns true iff the
margin-shrunk moving footprint (origin position + margin) and the
margin-shrunk target footprint additionally shifted by the fixed 12-tile
entity map offset (origin position + margin - 12) overlap under strict
inequalities on both axes and the vertical ranges [z, z + height) overlap
strictly; in particular, for A at (0,0,0) size 1 height 1 and B at
(12.5, 12, 0) size 1 height 1 (B half a tile to the right of A once the map
offset is discounted) the predicate returns true. -/
theorem C1_theorem :
    (∀ a b : BoundingBox,
      Collision.check_entity_collision_3d a b = true ↔
        (a.world_pos.x + Collision.MARGIN <
            b.world_pos.x + Collision.MARGIN - 12 + (b.size_in_tiles - Collision.MARGIN * 2) ∧
         a.world_pos.x + Collision.MARGIN + (a.size_in_tiles - Collision.MARGIN * 2) >
            b.world_pos.x + Collision.MARGIN - 12 ∧
         a.world_pos.y + Collision.MARGIN <
            b.world_pos.y + Collision.MARGIN - 12 + (b.size_in_tiles - Collision.MARGIN * 2) ∧
         a.world_pos.y + Collision.MARGIN + (a.size_in_tiles - Collision.MARGIN * 2) >
            b.world_pos.y + Collision.MARGIN - 12 ∧
         a.world_pos.z < b.world_pos.z + b.height_in_tiles ∧
         a.world_pos.z + a.height_in_tiles > b.world_pos.z)) ∧
    Collision.check_entity_collision_3d ⟨⟨0, 0, 0⟩, 1, 1⟩ ⟨⟨25/2, 12, 0⟩, 1, 1⟩ = true :=
  ⟨check_entity_collision_3d_eq_true, by with_unfolding_all rfl⟩

/-- Claim C2: the horizontal resolver tests the diagonal (new_x, new_y), the
X-only (new_x, old_y) and the Y-only (old_x, new_y) candidates in that fixed
order and returns the first collision-free one — with the non-moved
coordinate exactly the old one — together with touched entity none; when
all three tests fail it returns (old_x, old_y) and the obstacle reported by
the last executed (Y-only) test. -/
theorem C2_theorem (hero : Hero) (entities : List Entity) (new_x new_y : ℚ) :
    Collision.resolve_entity_collision hero entities new_x new_y =
      match [(new_x, new_y), (new_x, hero.world_pos.y),
             (hero.world_pos.x, new_y)].find?
          (fun p => (Collision.check_collids_entity hero p.1 p.2 entities).isNone) with
      | some p => (p.1, p.2, none)
      | none =>
        (hero.world_pos.x, hero.world_pos.y,
         Collision.check_collids_entity hero hero.world_pos.x new_y entities) := by
  unfold Collision.resolve_entity_collision
  cases h1 : Collision.check_collids_entity hero new_x new_y entities with
  | none => simp [List.find?, h1]
  | some e1 =>
    cases h2 : Collision.check_collids_entity hero new_x hero.world_pos.y entities with
    | none => simp [List.find?, h1, h2]
    | some e2 =>
      cases h3 : Collision.check_collids_entity hero hero.world_pos.x new_y entities with
      | none => simp [List.find?, h1, h2, h3]
      | some e3 => simp [List.find?, h1, h2, h3]

/-- Claim C4 counterexample: for the scenario warp (room1 = 1 with rectangle
(10,10,2,2), room2 = 2 with rectangle (2,2,2,2)), the destination resolved
when leaving room 1 is (-10,-10) — the other rectangle's origin minus the
fixed 12-tile offset — and not (3,3) as the paired-rectangle mapping of the
claim would give for entry tile (11,11). -/
theorem C4_counterexample :
    Warp.get_destination ⟨1, 2, 10, 10, 2, 2, 2, 2⟩ 1 = (-10, -10) ∧
    Warp.get_destination ⟨1, 2, 10, 10, 2, 2, 2, 2⟩ 1 ≠ (3, 3) := by
  constructor <;> decide

/-- Claim C4 (amended): for every Warp the resolved destination is the origin
of the *target* room's rectangle shifted by the fixed 12-tile map offset on
each axis, independent of the triggering tile's offset within the entry
rectangle (the destination-room id being `get_target_room`). -/
theorem C4_theorem (w : Warp) (current_room : ℤ) (h : w.room1 ≠ w.room2) :
    w.get_destination current_room =
      ((w.rect_origin (w.get_target_room current_room)).1 - 12,
       (w.rect_origin (w.get_target_room current_room)).2 - 12) := by
  unfold Warp.get_destination Warp.get_target_room Warp.rect_origin
  by_cases hc : current_room = w.room1
  · simp [hc, beq_iff_eq, (Ne.symm h)]
  · simp [beq_iff_eq, hc]

/-- Witness for C4: the amended mapping evaluated on the scenario warp. -/
theorem C4_witness :
    Warp.get_destination ⟨1, 2, 10, 10, 2, 2, 2, 2⟩ 1 =
      ((Warp.rect_origin ⟨1, 2, 10, 10, 2, 2, 2, 2⟩
          (Warp.get_target_room ⟨1, 2, 10, 10, 2, 2, 2, 2⟩ 1)).1 - 12,
       (Warp.rect_origin ⟨1, 2, 10, 10, 2, 2, 2, 2⟩
          (Warp.get_target_room ⟨1, 2, 10, 10, 2, 2, 2, 2⟩ 1)).2 - 12) :=
  C4_theorem ⟨1, 2, 10, 10, 2, 2, 2, 2⟩ 1 (by decide)

/-- Claim C9 counterexample: at the invalid coordinates (-1, 0) the lookup
returns no cell at all (`none`), not a blocked height-0 cell as the claim
states. -/
theorem C9_counterexample :
    Heightmap.get_cell ⟨0, 0, [[⟨1, 0⟩]]⟩ (-1) 0 = none ∧
    ¬∃ c : HeightmapCell, Heightmap.get_cell ⟨0, 0, [[⟨1, 0⟩]]⟩ (-1) 0 = some c := by
  refine ⟨by decide, ?_⟩
  rintro ⟨c, hc⟩
  rw [show Heightmap.get_cell ⟨0, 0, [[⟨1, 0⟩]]⟩ (-1) 0 = none by decide] at hc
  exact Option.noConfusion hc

/-- Claim C9 (amended): for coordinates outside the grid's valid index range
`get_cell` returns `None` (no cell) rather than raising — callers branch on
the missing cell and treat it as blocked — while inside the range of a
rectangular (fully loaded) grid it returns the stored cell. -/
theorem C9_theorem (hm : Heightmap) (x y : ℤ) :
    (¬(0 ≤ y ∧ y < (hm.get_height : ℤ) ∧ 0 ≤ x ∧ x < (hm.get_width : ℤ)) →
      hm.get_cell x y = none) ∧
    ((∀ row ∈ hm.cells, row.length = hm.get_width) →
     (0 ≤ y ∧ y < (hm.get_height : ℤ) ∧ 0 ≤ x ∧ x < (hm.get_width : ℤ)) →
      ∃ c, hm.get_cell x y = some c) := by
  constructor
  · intro h
    unfold Heightmap.get_cell
    rw [if_neg h]
  · intro hrect hin
    unfold Heightmap.get_cell
    rw [if_pos hin]
    obtain ⟨hy0, hyh, hx0, hxw⟩ := hin
    have hylen : y.toNat < hm.cells.length := by
      unfold Heightmap.get_height at hyh
      omega
    have h1 : hm.cells.get? y.toNat = some (hm.cells.get ⟨y.toNat, hylen⟩) :=
      List.get?_eq_get hylen
    have hrmem : hm.cells.get ⟨y.toNat, hylen⟩ ∈ hm.cells := List.get_mem _ _ _
    have hrl : (hm.cells.get ⟨y.toNat, hylen⟩).length = hm.get_width := hrect _ hrmem
    have hxlen : x.toNat < (hm.cells.get ⟨y.toNat, hylen⟩).length := by
      rw [hrl]; omega
    have h2 : (hm.cells.get ⟨y.toNat, hylen⟩).get? x.toNat =
        some ((hm.cells.get ⟨y.toNat, hylen⟩).get ⟨x.toNat, hxlen⟩) :=
      List.get?_eq_get hxlen
    exact ⟨(hm.cells.get ⟨y.toNat, hylen⟩).get ⟨x.toNat, hxlen⟩, by rw [h1, Option.some_bind, h2]⟩

/-- Witness for C9: a concrete in-range lookup on a rectangular grid yields a
cell, and the amended theorem's hypotheses hold there. -/
theorem C9_witness :
    ∃ c, Heightmap.get_cell ⟨0, 0, [[⟨1, 0⟩]]⟩ 0 0 = some c :=
  (C9_theorem ⟨0, 0, [[⟨1, 0⟩]]⟩ 0 0).2 (by decide) (by decide)

theorem alias_step (s : Drawable.AliasState) (op : Drawable.PosOp)
    (h : s.bbox_ref = s.pos_ref) : (s.apply op).bbox_ref = (s.apply op).pos_ref := by
  cases op <;> simp [Drawable.AliasState.apply, h]

theorem alias_foldl (ops : List Drawable.PosOp) :
    ∀ s : Drawable.AliasState, s.bbox_ref = s.pos_ref →
      (ops.foldl Drawable.AliasState.apply s).bbox_ref =
        (ops.foldl Drawable.AliasState.apply s).pos_ref := by
  induction ops with
  | nil => intro s h; exact h
  | cons op rest ih => intro s h; exact ih _ (alias_step s op h)

/-- Claim C10: from construction on, the bounding box references the very
same position object as the actor's own world position, every listed
position-mutating operation preserves this aliasing, and therefore the
position the bounding box exposes always equals the actor's current
position — including after the single-coordinate setters that never touch
the bounding box. -/
theorem C10_theorem (x y z : ℚ) (ops : List Drawable.PosOp) :
    ((ops.foldl Drawable.AliasState.apply (Drawable.construct_actor x y z)).bbox_ref =
       (ops.foldl Drawable.AliasState.apply (Drawable.construct_actor x y z)).pos_ref) ∧
    (ops.foldl Drawable.AliasState.apply (Drawable.construct_actor x y z)).bbox_world_pos =
      (ops.foldl Drawable.AliasState.apply (Drawable.construct_actor x y z)).world_pos := by
  have h := alias_foldl ops (Drawable.construct_actor x y z) rfl
  refine ⟨h, ?_⟩
  unfold Drawable.AliasState.bbox_world_pos Drawable.AliasState.world_pos
  rw [h]

theorem check_collids_entity_eq_find (hero : Hero) (x y : ℚ) (entities : List Entity) :
    Collision.check_collids_entity hero x y entities =
      entities.find? (fun e =>
        Collision.check_entity_collision_3d (Collision.temp_hero_bbox hero x y) e.bbox) := by
  induction entities with
  | nil => rfl
  | cons e rest ih =>
    unfold Collision.check_collids_entity
    cases hc : Collision.check_entity_collision_3d (Collision.temp_hero_bbox hero x y) e.bbox <;>
      simp [List.find?, hc, ih]

/-- Claim C5 counterexample: a non-solid, invisible entity passed to the
resolver blocks all three tests and is reported as the touched entity. -/
theorem C5_counterexample :
    Collision.resolve_entity_collision ⟨⟨0, 0, 0⟩, 2, 1, none, false, false⟩
        [⟨1, ⟨⟨12, 12, 0⟩, 1, 1⟩, false, false⟩] (1/2) 0 =
      (0, 0, some ⟨1, ⟨⟨12, 12, 0⟩, 1, 1⟩, false, false⟩) ∧
    (⟨1, ⟨⟨12, 12, 0⟩, 1, 1⟩, false, false⟩ : Entity).solid = false ∧
    (⟨1, ⟨⟨12, 12, 0⟩, 1, 1⟩, false, false⟩ : Entity).visible = false := by
  refine ⟨?_, rfl, rfl⟩
  with_unfolding_all rfl

/-- Claim C5 (amended): the collision tests run by the horizontal resolver
use the entity list exactly as passed — the first entity in list order whose
bounding box 3D-collides with the probe box is returned, with no filtering
by solid, visible or grabbed status (the caller passes the full room entity
list) — so a non-solid, invisible entity can block movement and be reported
as the colliding obstacle, as in the concrete scenario. -/
theorem C5_theorem :
    (∀ (hero : Hero) (x y : ℚ) (entities : List Entity),
      Collision.check_collids_entity hero x y entities =
        entities.find? (fun e =>
          Collision.check_entity_collision_3d (Collision.temp_hero_bbox hero x y) e.bbox)) ∧
    Collision.resolve_entity_collision ⟨⟨0, 0, 0⟩, 2, 1, none, false, false⟩
        [⟨1, ⟨⟨12, 12, 0⟩, 1, 1⟩, false, false⟩] (1/2) 0 =
      (0, 0, some ⟨1, ⟨⟨12, 12, 0⟩, 1, 1⟩, false, false⟩) :=
  ⟨check_collids_entity_eq_find, by with_unfolding_all rfl⟩



theorem can_place_loop_eq_true (temp_bbox : BoundingBox) (entity : Entity)
    (others : List Entity) :
    Collision.can_place_loop temp_bbox entity others = true ↔
      ∀ other ∈ others, other.id ≠ entity.id → other.solid = true → other.visible = true →
        Collision.check_entity_collision_3d temp_bbox other.bbox = false := by
  induction others with
  | nil => simp [Collision.can_place_loop]
  | cons o rest ih =>
    unfold Collision.can_place_loop
    cases hid : (o.id == entity.id) <;> cases hs : o.solid <;> cases hv : o.visible
    case false.false.false | false.false.true | false.true.false =>
      simp [hid, hs, hv, ih, List.forall_mem_cons]
    case true.false.false | true.false.true | true.true.false | true.true.true =>
      have hideq : o.id = entity.id := by
        have := hid
        simpa [beq_iff_eq] using this
      simp [hid, hs, hv, ih, List.forall_mem_cons, hideq]
    case false.true.true =>
      have hne : o.id ≠ entity.id := by
        intro h
        rw [h] at hid
        simp at hid
      cases hcol : Collision.check_entity_collision_3d temp_bbox o.bbox <;>
        simp [hid, hs, hv, hcol, ih, List.forall_mem_cons, hne]

theorem get_cell_some_bounds (hm : Heightmap) (x y : ℤ) (c : HeightmapCell)
    (h : hm.get_cell x y = some c) :
    0 ≤ y ∧ y < (hm.get_height : ℤ) ∧ 0 ≤ x ∧ x < (hm.get_width : ℤ) := by
  by_cases hb : (0 ≤ y ∧ y < (hm.get_height : ℤ) ∧ 0 ≤ x ∧ x < (hm.get_width : ℤ))
  · exact hb
  · unfold Heightmap.get_cell at h
    rw [if_neg hb] at h
    exact Option.noConfusion h

/-- Claim C7: `can_place_entity_at_position` runs its checks in the fixed
order — candidate tile within grid bounds, terrain cell walkable, terrain
height not exceeding the acting actor's Z by more than the two-tile step
threshold, then 3D collision against the other solid visible entities
excluding the placed one — short-circuiting to false on the first failure
and returning true exactly when all checks pass; in particular, when the
walkable cell's height exceeds the actor's Z by more than the threshold the
result is false for *every* entity list, i.e. without the entity-overlap
check having any effect. -/
theorem C7_theorem (hero_z : ℚ) (entity : Entity) (x y z : ℚ)
    (other_entities : List Entity) (hm : Heightmap) :
    (Collision.can_place_entity_at_position hero_z entity x y z other_entities hm = true ↔
      (0 ≤ pyInt x ∧ 0 ≤ pyInt y ∧ pyInt x < (hm.get_width : ℤ) ∧
       pyInt y < (hm.get_height : ℤ) ∧
       ∃ cell, hm.get_cell (pyInt x) (pyInt y) = some cell ∧ cell.is_walkable = true ∧
         (cell.height : ℚ) - hero_z ≤ 2 ∧
         ∀ other ∈ other_entities, other.id ≠ entity.id → other.solid = true →
           other.visible = true →
           Collision.check_entity_collision_3d
             ⟨⟨x, y, z⟩, entity.bbox.height_in_tiles, entity.bbox.size_in_tiles⟩
             other.bbox = false)) ∧
    (∀ cell, hm.get_cell (pyInt x) (pyInt y) = some cell → cell.is_walkable = true →
      2 < (cell.height : ℚ) - hero_z →
      ∀ entities2 : List Entity,
        Collision.can_place_entity_at_position hero_z entity x y z entities2 hm = false) := by
  constructor
  · unfold Collision.can_place_entity_at_position
    by_cases hb : (pyInt x < 0 ∨ pyInt y < 0 ∨ (hm.get_width : ℤ) ≤ pyInt x ∨
        (hm.get_height : ℤ) ≤ pyInt y)
    · rw [if_pos hb]
      constructor
      · intro h; exact absurd h (by simp)
      · rintro ⟨h1, h2, h3, h4, -⟩
        rcases hb with h | h | h | h <;> omega
    · rw [if_neg hb]
      cases hcell : hm.get_cell (pyInt x) (pyInt y) with
      | none =>
        simp only [hcell]
        constructor
        · intro h; exact absurd h (by simp)
        · rintro ⟨-, -, -, -, cell, hcell2, -⟩
          exact Option.noConfusion hcell2
      | some c =>
        simp only [hcell]
        cases hw : c.is_walkable with
        | false =>
          rw [Bool.not_false, if_pos rfl]
          constructor
          · intro h; exact absurd h (by simp)
          · rintro ⟨-, -, -, -, cell, hcell2, hw2, -⟩
            injection hcell2 with hcc
            rw [hcc] at hw
            rw [hw] at hw2
            exact Bool.noConfusion hw2
        | true =>
          rw [Bool.not_true, if_neg (fun h => Bool.noConfusion h)]
          by_cases hh : (c.height : ℚ) - hero_z > 2
          · rw [if_pos hh]
            constructor
            · intro h; exact absurd h (by simp)
            · rintro ⟨-, -, -, -, cell, hcell2, -, hh2, -⟩
              injection hcell2 with hcc
              rw [hcc] at hh
              exact absurd hh (by linarith)
          · rw [if_neg hh]
            rw [can_place_loop_eq_true]
            constructor
            · intro hall
              push_neg at hb
              exact ⟨by omega, by omega, by omega, by omega,
                c, rfl, hw, by linarith [not_lt.mp hh], hall⟩
            · rintro ⟨-, -, -, -, cell, hcell2, -, -, hall⟩
              exact hall
  · intro cell hcell hw hh entities2
    have hbnd := get_cell_some_bounds hm (pyInt x) (pyInt y) cell hcell
    unfold Collision.can_place_entity_at_position
    rw [if_neg (by push_neg; omega)]
    simp only [hcell]
    rw [hw, Bool.not_true, if_neg (fun h => Bool.noConfusion h), if_pos hh]

/-- Witness for C7: a walkable cell of height 5 above an actor at Z 0 makes
the validator reject, whatever entities are passed. -/
theorem C7_witness :
    Collision.can_place_entity_at_position 0 ⟨0, ⟨⟨0, 0, 0⟩, 1, 1⟩, true, true⟩ 0 0 0
      [⟨1, ⟨⟨12, 12, 0⟩, 1, 1⟩, true, true⟩] ⟨0, 0, [[⟨5, 0⟩]]⟩ = false :=
  (C7_theorem 0 ⟨0, ⟨⟨0, 0, 0⟩, 1, 1⟩, true, true⟩ 0 0 0
      [⟨1, ⟨⟨12, 12, 0⟩, 1, 1⟩, true, true⟩] ⟨0, 0, [[⟨5, 0⟩]]⟩).2 ⟨5, 0⟩
    (by with_unfolding_all rfl) (by with_unfolding_all rfl) (by norm_num)
    [⟨1, ⟨⟨12, 12, 0⟩, 1, 1⟩, true, true⟩]

theorem check_warp_collision_same_tile (st : Game.WarpCheckState) (room_number : ℤ)
    (warps : List Warp) (hero_bb : ℚ × ℚ × ℚ × ℚ) (tile_h : ℤ)
    (h : Game.hero_center_tile hero_bb tile_h = (st.prev_hero_tile_x, st.prev_hero_tile_y)) :
    Game.check_warp_collision st room_number warps hero_bb tile_h = (false, st) := by
  unfold Game.check_warp_collision
  rw [h]
  simp

theorem check_warp_collision_new_tile (st : Game.WarpCheckState) (room_number : ℤ)
    (warps : List Warp) (hero_bb : ℚ × ℚ × ℚ × ℚ) (tile_h : ℤ)
    (h : Game.hero_center_tile hero_bb tile_h ≠ (st.prev_hero_tile_x, st.prev_hero_tile_y)) :
    (Game.check_warp_collision st room_number warps hero_bb tile_h).2 =
      ⟨(Game.hero_center_tile hero_bb tile_h).1,
       (Game.hero_center_tile hero_bb tile_h).2⟩ := by
  unfold Game.check_warp_collision
  rw [if_neg]
  intro hc
  simp only [Bool.and_eq_true, beq_iff_eq] at hc
  exact h (Prod.ext hc.1 hc.2)

theorem run_warp_checks_zero (room_number : ℤ) (warps : List Warp) (tile_h : ℤ)
    (T : ℤ × ℤ) (frames : List (ℚ × ℚ × ℚ × ℚ)) :
    ∀ st : Game.WarpCheckState,
      (∀ bb ∈ frames, Game.hero_center_tile bb tile_h = T) →
      st.prev_hero_tile_x = T.1 → st.prev_hero_tile_y = T.2 →
      Game.run_warp_checks room_number warps tile_h st frames = 0 := by
  induction frames with
  | nil => intro st _ _ _; rfl
  | cons bb rest ih =>
    intro st hT hx hy
    have hbb := hT bb (List.mem_cons_self bb rest)
    have hsame : Game.hero_center_tile bb tile_h =
        (st.prev_hero_tile_x, st.prev_hero_tile_y) := by
      rw [hbb, hx, hy]
    unfold Game.run_warp_checks
    rw [check_warp_collision_same_tile st room_number warps bb tile_h hsame]
    show (if false = true then 1 else 0) +
        Game.run_warp_checks room_number warps tile_h st rest = 0
    rw [ih st (fun b hb => hT b (List.mem_cons_of_mem bb hb)) hx hy]
    rfl


/-- Claim C8: the warp check evaluates warp rectangles only when the tile of
the actor's footprint center differs from the tile recorded on the previous
check, recording the new tile when it does; hence over any sequence of
frames whose center tile stays at T, at most one trigger fires, and a
repeated check at the recorded tile fires nothing and leaves the state
unchanged. -/
theorem C8_theorem (room_number : ℤ) (warps : List Warp) (tile_h : ℤ)
    (st : Game.WarpCheckState) (frames : List (ℚ × ℚ × ℚ × ℚ)) (T : ℤ × ℤ)
    (hT : ∀ bb ∈ frames, Game.hero_center_tile bb tile_h = T) :
    Game.run_warp_checks room_number warps tile_h st frames ≤ 1 ∧
    (∀ bb : ℚ × ℚ × ℚ × ℚ,
      Game.hero_center_tile bb tile_h = (st.prev_hero_tile_x, st.prev_hero_tile_y) →
      Game.check_warp_collision st room_number warps bb tile_h = (false, st)) := by
  refine ⟨?_, fun bb h => check_warp_collision_same_tile st room_number warps bb tile_h h⟩
  cases frames with
  | nil => simp [Game.run_warp_checks]
  | cons bb rest =>
    have hbb := hT bb (List.mem_cons_self bb rest)
    have hrest : ∀ b ∈ rest, Game.hero_center_tile b tile_h = T :=
      fun b hb => hT b (List.mem_cons_of_mem bb hb)
    unfold Game.run_warp_checks
    by_cases hsame : Game.hero_center_tile bb tile_h =
        (st.prev_hero_tile_x, st.prev_hero_tile_y)
    · rw [check_warp_collision_same_tile st room_number warps bb tile_h hsame]
      have hpx : st.prev_hero_tile_x = T.1 := by rw [← hbb, hsame]
      have hpy : st.prev_hero_tile_y = T.2 := by rw [← hbb, hsame]
      show (if false = true then 1 else 0) +
          Game.run_warp_checks room_number warps tile_h st rest ≤ 1
      rw [run_warp_checks_zero room_number warps tile_h T rest st hrest hpx hpy]
      simp
    · have hsnd := check_warp_collision_new_tile st room_number warps bb tile_h hsame
      show (if (Game.check_warp_collision st room_number warps bb tile_h).1 = true
            then 1 else 0) +
          Game.run_warp_checks room_number warps tile_h
            (Game.check_warp_collision st room_number warps bb tile_h).2 rest ≤ 1
      rw [hsnd]
      rw [run_warp_checks_zero room_number warps tile_h T rest
        ⟨(Game.hero_center_tile bb tile_h).1, (Game.hero_center_tile bb tile_h).2⟩ hrest
        (by rw [hbb]) (by rw [hbb])]
      cases (Game.check_warp_collision st room_number warps bb tile_h).1 <;> simp

/-- Claim C3 (code bug): the claim describes the intended vertical
integrator, but `game.py` `apply_gravity` raises an uncaught TypeError for
every non-jumping actor (stale 3-argument call at line 644 into the
2-parameter `get_entity_hero_is_standing_on`, and a stale 7-argument call
at line 651 into the 6-parameter `get_entity_top_at_position`) before any
Z update, so the claimed fall / snap-to-support / grounding behavior is
never performed: evaluated at the failing input -- a non-jumping hero at
z = 3 over a flat height-0 walkable grid with no entities -- the integrator
yields the TypeError and no updated actor state. -/
theorem C3_theorem :
    Game.apply_gravity ⟨⟨0, 0, 3⟩, 2, 1, none, false, false⟩
        ⟨0, 0, [[⟨0, 0⟩]]⟩ [] 16 = Except.error Game.PyError.typeError ∧
    (⟨⟨0, 0, 3⟩, 2, 1, none, false, false⟩ : Hero).is_jumping = false :=
  ⟨rfl, rfl⟩

/-- Witness for C8: two identical frames over the same center tile fire at
most once. -/
theorem C8_witness :
    Game.run_warp_checks 1 [] 16 ⟨-1, -1⟩ [(0, 0, 0, 0), (0, 0, 0, 0)] ≤ 1 :=
  (C8_theorem 1 [] 16 ⟨-1, -1⟩ [(0, 0, 0, 0), (0, 0, 0, 0)] (0, 0)
    (by
      intro bb hbb
      rcases List.mem_cons.mp hbb with h | h
      · rw [h]; with_unfolding_all rfl
      · rw [List.mem_singleton] at h
        rw [h]; with_unfolding_all rfl)).1

theorem standing_on_step_eq (hero : Hero) (acc : Option (ℚ × Entity)) (e : Entity) :
    Collision.standing_on_step hero (hero.world_pos.x + Collision.MARGIN)
        (hero.world_pos.y + Collision.MARGIN)
        (hero.bbox.size_in_tiles - (Collision.MARGIN * 2))
        (hero.bbox.size_in_tiles - (Collision.MARGIN * 2)) acc e =
      if Collision.standing_on_qualifies hero e = true then
        match acc with
        | none => some (Collision.entity_top e, e)
        | some (highest_top, highest_entity) =>
          if Collision.entity_top e > highest_top then some (Collision.entity_top e, e)
          else some (highest_top, highest_entity)
      else acc := by
  unfold Collision.standing_on_step Collision.standing_on_qualifies Collision.entity_top
  cases hs : e.solid <;> cases hv : e.visible <;> cases hg : (hero.grabbed == some e.id) <;>
    simp only [hs, hv, hg, Bool.not_true, Bool.not_false, Bool.true_or, Bool.or_true,
      Bool.false_or, Bool.or_false, Bool.true_and, Bool.and_true, Bool.false_and,
      Bool.and_false, if_pos rfl]
  case false.false.false | false.false.true | false.true.false | false.true.true |
      true.false.false | true.false.true | true.true.true =>
    rfl
  case true.true.false =>
    rw [if_neg (show ¬((false : Bool) = true) from fun h => Bool.noConfusion h)]
    cases hov : (decide (hero.world_pos.x + Collision.MARGIN <
          e.bbox.world_pos.x + Collision.MARGIN - 12 +
            (e.bbox.size_in_tiles - Collision.MARGIN * 2)) &&
        decide (hero.world_pos.x + Collision.MARGIN +
            (hero.bbox.size_in_tiles - Collision.MARGIN * 2) >
          e.bbox.world_pos.x + Collision.MARGIN - 12) &&
        decide (hero.world_pos.y + Collision.MARGIN <
          e.bbox.world_pos.y + Collision.MARGIN - 12 +
            (e.bbox.size_in_tiles - Collision.MARGIN * 2)) &&
        decide (hero.world_pos.y + Collision.MARGIN +
            (hero.bbox.size_in_tiles - Collision.MARGIN * 2) >
          e.bbox.world_pos.y + Collision.MARGIN - 12))
    · simp [hov]
    · rw [Bool.not_true, Bool.true_and]
      rw [if_neg (show ¬((false : Bool) = true) from fun h => Bool.noConfusion h)]
      by_cases hband : |hero.world_pos.z -
          (e.bbox.world_pos.z + e.bbox.height_in_tiles)| ≤ 1 / 16
      · rw [if_pos hband, if_pos (show decide (|hero.world_pos.z -
            (e.bbox.world_pos.z + e.bbox.height_in_tiles)| ≤ 1 / 16) = true from
          decide_eq_true hband)]
        try rfl
      · rw [if_neg hband, if_neg (show ¬(decide (|hero.world_pos.z -
            (e.bbox.world_pos.z + e.bbox.height_in_tiles)| ≤ 1 / 16) = true) from
          fun hc => hband (of_decide_eq_true hc))]

theorem standing_fold_cons (hero : Hero) (acc : Option (ℚ × Entity)) (e : Entity)
    (rest : List Entity) :
    Collision.standing_fold hero acc (e :: rest) =
      Collision.standing_fold hero
        (Collision.standing_on_step hero (hero.world_pos.x + Collision.MARGIN)
          (hero.world_pos.y + Collision.MARGIN)
          (hero.bbox.size_in_tiles - (Collision.MARGIN * 2))
          (hero.bbox.size_in_tiles - (Collision.MARGIN * 2)) acc e) rest := rfl

theorem standing_fold_cons_eq (hero : Hero) (acc : Option (ℚ × Entity)) (e : Entity)
    (rest : List Entity) :
    Collision.standing_fold hero acc (e :: rest) =
      Collision.standing_fold hero
        (if Collision.standing_on_qualifies hero e = true then
          match acc with
          | none => some (Collision.entity_top e, e)
          | some (t0, e0) =>
            if Collision.entity_top e > t0 then some (Collision.entity_top e, e)
            else some (t0, e0)
        else acc) rest := by
  rw [standing_fold_cons, standing_on_step_eq]

theorem standing_fold_spec (hero : Hero) (entities : List Entity) :
    ∀ acc : Option (ℚ × Entity),
      (∀ t0 e0, acc = some (t0, e0) → t0 = Collision.entity_top e0) →
      ((Collision.standing_fold hero acc entities = none →
        acc = none ∧ ∀ e2 ∈ entities, Collision.standing_on_qualifies hero e2 = false) ∧
       (∀ t e1, Collision.standing_fold hero acc entities = some (t, e1) →
        t = Collision.entity_top e1 ∧
        (acc = some (t, e1) ∨
          (e1 ∈ entities ∧ Collision.standing_on_qualifies hero e1 = true)) ∧
        (∀ e2 ∈ entities, Collision.standing_on_qualifies hero e2 = true →
          Collision.entity_top e2 ≤ t) ∧
        (∀ t0 e0, acc = some (t0, e0) → t0 ≤ t))) := by
  induction entities with
  | nil =>
    intro acc hacc
    constructor
    · intro h
      exact ⟨h, fun e2 h2 => absurd h2 (List.not_mem_nil e2)⟩
    · intro t e1 h
      have hacceq : acc = some (t, e1) := h
      refine ⟨hacc t e1 hacceq, Or.inl hacceq, ?_, ?_⟩
      · intro e2 h2
        exact absurd h2 (List.not_mem_nil e2)
      · intro t0 e0 h0
        rw [hacceq] at h0
        simp only [Option.some.injEq, Prod.mk.injEq] at h0
        exact le_of_eq h0.1.symm
  | cons e rest ih =>
    intro acc hacc
    rw [standing_fold_cons_eq]
    by_cases hq : Collision.standing_on_qualifies hero e = true
    · rw [if_pos hq]
      cases acc with
      | none =>
        obtain ⟨ihnone, ihsome⟩ := ih (some (Collision.entity_top e, e))
          (by intro t0 e0 h0; simp only [Option.some.injEq, Prod.mk.injEq] at h0
              rw [h0.1.symm, h0.2.symm])
        constructor
        · intro h
          exact absurd (ihnone h).1 (fun hc => Option.noConfusion hc)
        · intro t e1 h
          obtain ⟨hwf, hsrc, hbound, hmono⟩ := ihsome t e1 h
          refine ⟨hwf, ?_, ?_, ?_⟩
          · rcases hsrc with hl | hr
            · simp only [Option.some.injEq, Prod.mk.injEq] at hl
              exact Or.inr ⟨by rw [← hl.2]; exact List.mem_cons_self e rest,
                by rw [← hl.2]; exact hq⟩
            · exact Or.inr ⟨List.mem_cons_of_mem e hr.1, hr.2⟩
          · intro e2 h2 hq2
            rcases List.mem_cons.mp h2 with heq | h2r
            · subst heq
              exact hmono (Collision.entity_top e2) e2 rfl
            · exact hbound e2 h2r hq2
          · intro t0 e0 h0
            exact Option.noConfusion h0
      | some p =>
        obtain ⟨t0, e0⟩ := p
        have ht0 : t0 = Collision.entity_top e0 := hacc t0 e0 rfl
        dsimp only
        by_cases hcmp : Collision.entity_top e > t0
        · rw [if_pos hcmp]
          obtain ⟨ihnone, ihsome⟩ := ih (some (Collision.entity_top e, e))
            (by intro t1 e1 h1; simp only [Option.some.injEq, Prod.mk.injEq] at h1
                rw [h1.1.symm, h1.2.symm])
          constructor
          · intro h
            exact absurd (ihnone h).1 (fun hc => Option.noConfusion hc)
          · intro t e1 h
            obtain ⟨hwf, hsrc, hbound, hmono⟩ := ihsome t e1 h
            have htope : Collision.entity_top e ≤ t :=
              hmono (Collision.entity_top e) e rfl
            refine ⟨hwf, ?_, ?_, ?_⟩
            · rcases hsrc with hl | hr
              · simp only [Option.some.injEq, Prod.mk.injEq] at hl
                exact Or.inr ⟨by rw [← hl.2]; exact List.mem_cons_self e rest,
                  by rw [← hl.2]; exact hq⟩
              · exact Or.inr ⟨List.mem_cons_of_mem e hr.1, hr.2⟩
            · intro e2 h2 hq2
              rcases List.mem_cons.mp h2 with heq | h2r
              · subst heq
                exact htope
              · exact hbound e2 h2r hq2
            · intro t1 e2 h1
              simp only [Option.some.injEq, Prod.mk.injEq] at h1
              rw [← h1.1]
              exact le_trans (le_of_lt hcmp) htope
        · rw [if_neg hcmp]
          obtain ⟨ihnone, ihsome⟩ := ih (some (t0, e0)) hacc
          constructor
          · intro h
            exact absurd (ihnone h).1 (fun hc => Option.noConfusion hc)
          · intro t e1 h
            obtain ⟨hwf, hsrc, hbound, hmono⟩ := ihsome t e1 h
            have ht0t : t0 ≤ t := hmono t0 e0 rfl
            refine ⟨hwf, ?_, ?_, ?_⟩
            · rcases hsrc with hl | hr
              · exact Or.inl hl
              · exact Or.inr ⟨List.mem_cons_of_mem e hr.1, hr.2⟩
            · intro e2 h2 hq2
              rcases List.mem_cons.mp h2 with heq | h2r
              · subst heq
                exact le_trans (not_lt.mp hcmp) ht0t
              · exact hbound e2 h2r hq2
            · intro t1 e2 h1
              simp only [Option.some.injEq, Prod.mk.injEq] at h1
              rw [← h1.1]
              exact ht0t
    · rw [if_neg hq]
      obtain ⟨ihnone, ihsome⟩ := ih acc hacc
      have hqf : Collision.standing_on_qualifies hero e = false :=
        (Bool.not_eq_true _).mp hq
      constructor
      · intro h
        obtain ⟨h1, h2⟩ := ihnone h
        refine ⟨h1, ?_⟩
        intro e2 h3
        rcases List.mem_cons.mp h3 with heq | h3r
        · subst heq; exact hqf
        · exact h2 e2 h3r
      · intro t e1 h
        obtain ⟨hwf, hsrc, hbound, hmono⟩ := ihsome t e1 h
        refine ⟨hwf, ?_, ?_, hmono⟩
        · rcases hsrc with hl | hr
          · exact Or.inl hl
          · exact Or.inr ⟨List.mem_cons_of_mem e hr.1, hr.2⟩
        · intro e2 h2 hq2
          rcases List.mem_cons.mp h2 with heq | h2r
          · subst heq
            exact absurd hq2 hq
          · exact hbound e2 h2r hq2

theorem get_entity_hero_is_standing_on_eq_fold (hero : Hero) (entities : List Entity) :
    Collision.get_entity_hero_is_standing_on hero entities =
      (Collision.standing_fold hero none entities).map Prod.snd := rfl

/-- Claim C6 counterexample: an entity whose top (1) is well below the
hero's foot Z (5) passes the claim's one-sided test (top at or below foot Z
plus the 1/16 tolerance, as in `get_entity_top_at_position`), yet
`get_entity_hero_is_standing_on` does not report the hero standing on it —
its actual test is the two-sided band `abs(z - top) <= 1/16`. -/
theorem C6_counterexample :
    Collision.spec_standing_qualifies ⟨⟨0, 0, 5⟩, 2, 1, none, false, false⟩
        ⟨1, ⟨⟨12, 12, 0⟩, 1, 1⟩, true, true⟩ = true ∧
    Collision.get_entity_hero_is_standing_on ⟨⟨0, 0, 5⟩, 2, 1, none, false, false⟩
        [⟨1, ⟨⟨12, 12, 0⟩, 1, 1⟩, true, true⟩] = none := by
  constructor <;> with_unfolding_all rfl

/-- Claim C6 (amended): the hero is found standing on an entity exactly when
that entity is solid, visible, not the hero's grabbed entity, its
margin-shrunk footprint overlaps the hero's footprint, and its top
(z + height) lies within the two-sided one-minor-unit (1/16 tile) band
around the hero's foot Z (`standing_on_qualifies`), the chosen entity being
one with the maximal such top; when no entity qualifies, none is reported. -/
theorem C6_theorem (hero : Hero) (entities : List Entity) :
    (∀ e, Collision.get_entity_hero_is_standing_on hero entities = some e →
      e ∈ entities ∧ Collision.standing_on_qualifies hero e = true ∧
      ∀ e2 ∈ entities, Collision.standing_on_qualifies hero e2 = true →
        Collision.entity_top e2 ≤ Collision.entity_top e) ∧
    (Collision.get_entity_hero_is_standing_on hero entities = none →
      ∀ e ∈ entities, Collision.standing_on_qualifies hero e = false) := by
  obtain ⟨hnone, hsome⟩ := standing_fold_spec hero entities none
    (fun t0 e0 h0 => Option.noConfusion h0)
  constructor
  · intro e h
    rw [get_entity_hero_is_standing_on_eq_fold] at h
    cases hf : Collision.standing_fold hero none entities with
    | none =>
      rw [hf] at h
      exact Option.noConfusion h
    | some p =>
      obtain ⟨t, e1⟩ := p
      rw [hf] at h
      simp only [Option.map_some'] at h
      have he : e1 = e := by injection h
      subst he
      obtain ⟨hwf, hsrc, hbound, -⟩ := hsome t e1 hf
      rcases hsrc with hl | hr
      · exact absurd hl (fun hc => Option.noConfusion hc)
      · refine ⟨hr.1, hr.2, ?_⟩
        intro e2 h2 hq2
        have hb := hbound e2 h2 hq2
        rw [hwf] at hb
        exact hb
  · intro h
    rw [get_entity_hero_is_standing_on_eq_fold] at h
    have hfn : Collision.standing_fold hero none entities = none := by
      cases hf : Collision.standing_fold hero none entities with
      | none => rfl
      | some p =>
        rw [hf] at h
        simp at h
    exact (hnone hfn).2

/-- Witness for C6: a qualifying support entity directly under the hero is
reported, qualifies, and has the maximal top of the (singleton) list. -/
theorem C6_witness :
    (⟨1, ⟨⟨12, 12, 0⟩, 1, 1⟩, true, true⟩ : Entity) ∈
        [(⟨1, ⟨⟨12, 12, 0⟩, 1, 1⟩, true, true⟩ : Entity)] ∧
    Collision.standing_on_qualifies ⟨⟨0, 0, 1⟩, 2, 1, none, false, false⟩
        ⟨1, ⟨⟨12, 12, 0⟩, 1, 1⟩, true, true⟩ = true ∧
    ∀ e2 ∈ [(⟨1, ⟨⟨12, 12, 0⟩, 1, 1⟩, true, true⟩ : Entity)],
      Collision.standing_on_qualifies ⟨⟨0, 0, 1⟩, 2, 1, none, false, false⟩ e2 = true →
        Collision.entity_top e2 ≤
          Collision.entity_top ⟨1, ⟨⟨12, 12, 0⟩, 1, 1⟩, true, true⟩ :=
  (C6_theorem ⟨⟨0, 0, 1⟩, 2, 1, none, false, false⟩
      [⟨1, ⟨⟨12, 12, 0⟩, 1, 1⟩, true, true⟩]).1
    ⟨1, ⟨⟨12, 12, 0⟩, 1, 1⟩, true, true⟩ (by with_unfolding_all rfl)
